import Mathlib

/-!
Verification of the fetcher/normalization layer of the two revisions
(`eol.py` and `eol_final.py`) of the software end-of-life lookup tool.

The embedding models JSON values (`JVal`), Python dictionary/list
operations with their exception behaviour (`Except String`), the HTTP
transport as an oracle from request index to a response or a raised
exception (`Net`), and each fetcher function of the two source files.
A fetcher returns the Python return value (`FetchReturn.ret`) together
with the list of URLs it requested, in order.
-/

/-- A JSON value as produced by `response.json()`.  Objects model Python
dictionaries with unique keys (as produced by JSON decoding). -/
inductive JVal where
  | null : JVal
  | bool (b : Bool) : JVal
  | num (n : Int) : JVal
  | str (s : String) : JVal
  | arr (elems : List JVal) : JVal
  | obj (fields : List (String × JVal)) : JVal

/-- First-match association lookup, the model of Python dict access. -/
def lookupPairs (k : String) : List (String × JVal) → Option JVal
  | [] => none
  | p :: t => if p.1 = k then some p.2 else lookupPairs k t

/-- Lookup of a key in a JSON value when that value is an object. -/
def objLookup (k : String) : JVal → Option JVal
  | .obj fs => lookupPairs k fs
  | _ => none

/-- Whether a JSON value is an object (a Python dict). -/
def JVal.isObj : JVal → Bool
  | .obj _ => true
  | _ => false

/-- The value of `v.get(k, d)` on an object `v`, ignoring exceptions:
the stored value if the key is present, otherwise the default `d`. -/
def dGet (v : JVal) (k : String) (d : JVal) : JVal :=
  (objLookup k v).getD d

/-- Python type name of a JSON value, used in exception messages. -/
def pyTypeName : JVal → String
  | .null => "NoneType"
  | .bool _ => "bool"
  | .num _ => "int"
  | .str _ => "str"
  | .arr _ => "list"
  | .obj _ => "dict"

/-- A string wrapped in single quotes, as in Python exception text. -/
def quoted (s : String) : String := "\x27" ++ s ++ "\x27"

/-- Message of the `AttributeError` raised by `v.get(...)` on a non-dict. -/
def attrGetErr (v : JVal) : String :=
  quoted (pyTypeName v) ++ " object has no attribute " ++ quoted "get"

/-- Python truthiness of a JSON value (`if v:`). -/
def pyTruthy : JVal → Bool
  | .null => false
  | .bool b => b
  | .num n => n != 0
  | .str s => s != ""
  | .arr l => !l.isEmpty
  | .obj fs => !fs.isEmpty

/-- Python `v == False`: true exactly for the boolean `False` and for
numbers equal to zero (Python booleans are numbers). -/
def pyEqFalse : JVal → Bool
  | .bool b => !b
  | .num n => n == 0
  | _ => false

/-- `v.get(k, d)`: returns the entry or the default on a dict, raises
`AttributeError` on anything else. -/
def pyGetAttrD (v : JVal) (k : String) (d : JVal) : Except String JVal :=
  match v with
  | .obj fs => .ok ((lookupPairs k fs).getD d)
  | _ => .error (attrGetErr v)

/-- `v[k]` for a string key: returns the entry on a dict (raising
`KeyError` when absent, whose `str` is the quoted key), raises
`TypeError` on anything else. -/
def pyGetItem (v : JVal) (k : String) : Except String JVal :=
  match v with
  | .obj fs =>
    match lookupPairs k fs with
    | some x => .ok x
    | none => .error (quoted k)
  | _ => .error (quoted (pyTypeName v) ++ " object is not subscriptable by str")

/-- `v.get(key, d)` where the key is itself a decoded JSON value (used
for `versions.get(latest, ...)`): string keys look up normally, lists
and dicts are unhashable, other hashable keys are absent from
string-keyed JSON objects. -/
def pyGetDyn (v : JVal) (key : JVal) (d : JVal) : Except String JVal :=
  match v with
  | .obj fs =>
    match key with
    | .str s => .ok ((lookupPairs s fs).getD d)
    | .arr _ => .error ("unhashable type: " ++ quoted "list")
    | .obj _ => .error ("unhashable type: " ++ quoted "dict")
    | _ => .ok d
  | _ => .error (attrGetErr v)

/-- `v[i]` for a non-negative integer index. -/
def pyIndex (v : JVal) (i : Nat) : Except String JVal :=
  match v with
  | .arr l =>
    match l.get? i with
    | some x => .ok x
    | none => .error "list index out of range"
  | .str s =>
    match s.toList.get? i with
    | some c => .ok (.str (String.singleton c))
    | none => .error "string index out of range"
  | .obj _ => .error (toString i)
  | _ => .error (quoted (pyTypeName v) ++ " object is not subscriptable")

/-- `for x in v`: iteration over a JSON value.  Lists yield elements,
strings yield one-character strings, dicts yield their keys. -/
def pyIter (v : JVal) : Except String (List JVal) :=
  match v with
  | .arr l => .ok l
  | .str s => .ok (s.toList.map fun c => .str (String.singleton c))
  | .obj fs => .ok (fs.map fun p => .str p.1)
  | _ => .error (quoted (pyTypeName v) ++ " object is not iterable")

/-- `v[:n]` slicing with a non-negative bound. -/
def pySlice (v : JVal) (n : Nat) : Except String JVal :=
  match v with
  | .arr l => .ok (.arr (l.take n))
  | .str s => .ok (.str (s.take n))
  | _ => .error (quoted (pyTypeName v) ++ " object is not sliceable")

/-- `len(v)`. -/
def pyLen (v : JVal) : Except String Nat :=
  match v with
  | .str s => .ok s.length
  | .arr l => .ok l.length
  | .obj fs => .ok fs.length
  | _ => .error (quoted (pyTypeName v) ++ " has no len")

/-- Join a list of strings with a separator. -/
def joinStrs (sep : String) : List String → String
  | [] => ""
  | [a] => a
  | a :: t => a ++ sep ++ joinStrs sep t

/-- The strings of a list of JSON values; raises `TypeError` when an
element is not a string (as `str.join` does). -/
def strsOf : List JVal → Except String (List String)
  | [] => .ok []
  | .str s :: t => do
    let r ← strsOf t
    pure (s :: r)
  | v :: _ => .error ("sequence item: expected str instance, " ++ pyTypeName v ++ " found")

/-- `sep.join(items)` over an already-iterated sequence. -/
def pyJoin (sep : String) (l : List JVal) : Except String String := do
  let parts ← strsOf l
  pure (joinStrs sep parts)

mutual
/-- Python `repr` of a decoded JSON value (string escaping omitted;
only exercised on scalar and flat values in this development). -/
def pyRepr : JVal → String
  | .null => "None"
  | .bool true => "True"
  | .bool false => "False"
  | .num n => toString n
  | .str s => "\x27" ++ s ++ "\x27"
  | .arr l => "[" ++ pyReprList l ++ "]"
  | .obj fs => "\x7b" ++ pyReprFields fs ++ "\x7d"

/-- `repr` of the elements of a list, comma separated. -/
def pyReprList : List JVal → String
  | [] => ""
  | [a] => pyRepr a
  | a :: t => pyRepr a ++ ", " ++ pyReprList t

/-- `repr` of the entries of a dict, comma separated. -/
def pyReprFields : List (String × JVal) → String
  | [] => ""
  | [p] => "\x27" ++ p.1 ++ "\x27: " ++ pyRepr p.2
  | p :: t => "\x27" ++ p.1 ++ "\x27: " ++ pyRepr p.2 ++ ", " ++ pyReprFields t
end

/-- Python `str(v)`. -/
def pyStr : JVal → String
  | .str s => s
  | v => pyRepr v

/-- Split a character list at every occurrence of a separator (the
list-level analogue of string splitting; always returns at least one
piece). -/
def splitOnChar (c : Char) : List Char → List (List Char)
  | [] => [[]]
  | a :: t =>
    match splitOnChar c t with
    | [] => [[]]
    | h :: r => if a = c then [] :: h :: r else (a :: h) :: r

/-- Accumulator for `digitsToNat`. -/
def digitsToNatAux (acc : Nat) : List Char → Option Nat
  | [] => some acc
  | c :: t => if c.isDigit then digitsToNatAux (acc * 10 + (c.toNat - 48)) t else none

/-- The numeric value of a non-empty all-digit character list. -/
def digitsToNat (l : List Char) : Option Nat :=
  match l with
  | [] => none
  | _ => digitsToNatAux 0 l

/-- One decimal digit as a string. -/
def natDigit (n : Nat) : String := String.singleton (Char.ofNat (48 + n % 10))

/-- A field rendered as exactly two decimal digits, as `strftime`
zero-pads months and days. -/
def twoDigits (n : Nat) : String := natDigit (n / 10) ++ natDigit n

/-- A field rendered as exactly four decimal digits, as `strftime`
renders the years admitted by `datetime` (at most 9999). -/
def fourDigits (n : Nat) : String :=
  natDigit (n / 1000) ++ natDigit (n / 100) ++ natDigit (n / 10) ++ natDigit n

/-- Models
`datetime.strptime(s, "%Y-%m-%dT%H:%M:%SZ").strftime("%Y-%m-%d")`:
validates the fixed timestamp shape (field-wise numeric with the
calendar ranges checked per field, day-of-month/month interaction not
modelled) and reformats to the zero-padded date part; raises the
`ValueError` text on mismatch. -/
def strptimeUpdatedAt (s : String) : Except String String :=
  match splitOnChar 'T' s.toList with
  | [d, t] =>
    match splitOnChar '-' d, splitOnChar ':' t with
    | [y, mo, da], [h, mi, sec] =>
      match sec.reverse with
      | 'Z' :: secR =>
        match digitsToNat y, digitsToNat mo, digitsToNat da,
            digitsToNat h, digitsToNat mi, digitsToNat secR.reverse with
        | some yn, some mon, some dan, some hn, some minn, some sn =>
          if 1 ≤ mon && mon ≤ 12 && 1 ≤ dan && dan ≤ 31 && hn ≤ 23 && minn ≤ 59 && sn ≤ 59
          then .ok (fourDigits yn ++ "-" ++ twoDigits mon ++ "-" ++ twoDigits dan)
          else .error ("time data " ++ quoted s ++ " does not match format")
        | _, _, _, _, _, _ => .error ("time data " ++ quoted s ++ " does not match format")
      | _ => .error ("time data " ++ quoted s ++ " does not match format")
    | _, _ => .error ("time data " ++ quoted s ++ " does not match format")
  | _ => .error ("time data " ++ quoted s ++ " does not match format")

/-- `datetime.strptime(v, "%Y-%m-%dT%H:%M:%SZ").strftime("%Y-%m-%d")`
applied to a decoded JSON value: `strptime` requires a string argument. -/
def strptimeArg (v : JVal) : Except String String :=
  match v with
  | .str s => strptimeUpdatedAt s
  | v => .error ("strptime() argument 1 must be str, not " ++ pyTypeName v)

/-- An HTTP response object: its status code and the outcome of calling
`.json()` on it (an error models a malformed body). -/
structure HttpResp where
  status : Nat
  body : Except String JVal

/-- What one call of `requests.get` does: either raises (network error,
timeout, ...) or yields a response object. -/
inductive NetResult where
  | exc (msg : String) : NetResult
  | resp (r : HttpResp) : NetResult

/-- The transport oracle: the behaviour of the i-th outbound request
performed by a fetcher call. -/
abbrev Net := Nat → NetResult

/-- What a fetcher call gives back to its caller: a Python return value
(`ret`, with `JVal.null` for `None` and an `Error: ...` string for the
caught-exception branch), or an exception escaping the fetcher. -/
inductive FetchReturn where
  | ret (v : JVal) : FetchReturn
  | raise (msg : String) : FetchReturn

/-- The aggregator treats a returned string as a per-source failure
outcome (`isinstance(result, str) and result.startswith("Error")` in
`eol.py`); fetchers only ever return strings of that form. -/
def isFailure : FetchReturn → Bool
  | .ret (.str _) => true
  | _ => false

/-- A returned `None`, the spec-level Empty outcome. -/
def isEmptyOutcome : FetchReturn → Bool
  | .ret .null => true
  | _ => false

/-- The common shape `try: response = requests.get(url); BODY
except Exception as e: return f"Error: {str(e)}"` of one-request
fetchers: one request is performed, an exception anywhere inside the
`try` is converted to the error string. -/
def runFetcher1Core (net : Net) (body : HttpResp → Except String JVal) : FetchReturn :=
  match net 0 with
  | .exc msg => .ret (.str ("Error: " ++ msg))
  | .resp response =>
    match body response with
    | .ok v => .ret v
    | .error e => .ret (.str ("Error: " ++ e))

/-- A one-request fetcher together with the single URL it requests. -/
def runFetcher1 (url : String) (net : Net) (body : HttpResp → Except String JVal) :
    FetchReturn × List String :=
  (runFetcher1Core net body, [url])

/-- As `runFetcher1Core`, but the `except` branch returns `None`
(the final revision of `fetch_security_advisories`). -/
def runFetcher1NoneCore (net : Net) (body : HttpResp → Except String JVal) : FetchReturn :=
  match net 0 with
  | .exc _ => .ret .null
  | .resp response =>
    match body response with
    | .ok v => .ret v
    | .error _ => .ret .null

/-- One-request fetcher whose `except` branch returns `None`. -/
def runFetcher1None (url : String) (net : Net) (body : HttpResp → Except String JVal) :
    FetchReturn × List String :=
  (runFetcher1NoneCore net body, [url])

/-- The Python `for`-loop accumulating one record per element,
propagating the first raised exception. -/
def forAppend (f : JVal → Except String JVal) : List JVal → Except String (List JVal)
  | [] => .ok []
  | a :: t => do
    let b ← f a
    let bs ← forAppend f t
    pure (b :: bs)

/-- The derived support status:
`"Active" if version.get("eol") == False else "End of Life" if version.get("eol") else "Unknown"`. -/
def supportStatus (e : JVal) : String :=
  if pyEqFalse e then "Active"
  else if pyTruthy e then "End of Life"
  else "Unknown"

/-- The per-version record built inside `fetch_endoflife_date`
(identical in both revisions); `version.get(...)` raises on a non-dict. -/
def versionInfo (version : JVal) : Except String JVal := do
  let cycle ← pyGetAttrD version "cycle" (.str "Unknown")
  let rd ← pyGetAttrD version "releaseDate" (.str "Unknown")
  let eolDate ← pyGetAttrD version "eol" (.str "Unknown")
  let latest ← pyGetAttrD version "latest" (.str "Unknown")
  let lts ← pyGetAttrD version "lts" (.bool false)
  let e ← pyGetAttrD version "eol" .null
  pure (.obj [("Version", cycle), ("Release Date", rd), ("EOL Date", eolDate),
    ("Latest", latest), ("LTS", .str (if pyTruthy lts then "Yes" else "No")),
    ("Support Status", .str (supportStatus e))])

/-- The pure value of `versionInfo` on a dict. -/
def versionRecord (v : JVal) : JVal :=
  .obj [("Version", dGet v "cycle" (.str "Unknown")),
    ("Release Date", dGet v "releaseDate" (.str "Unknown")),
    ("EOL Date", dGet v "eol" (.str "Unknown")),
    ("Latest", dGet v "latest" (.str "Unknown")),
    ("LTS", .str (if pyTruthy (dGet v "lts" (.bool false)) then "Yes" else "No")),
    ("Support Status", .str (supportStatus (dGet v "eol" .null)))]

/-- Body of `fetch_endoflife_date` (both revisions): on a 200 response,
return `None` for an empty payload, else one record per version. -/
def endoflifeBody (response : HttpResp) : Except String JVal := do
  if response.status = 200 then do
    let data ← response.body
    if pyTruthy data then do
      let l ← pyIter data
      let recs ← forAppend versionInfo l
      pure (.arr recs)
    else pure .null
  else pure .null

namespace eol

/-- `eol.py` `fetch_endoflife_date`. -/
def fetch_endoflife_date (software : String) (net : Net) : FetchReturn × List String :=
  runFetcher1 ("https://endoflife.date/api/" ++ software ++ ".json") net endoflifeBody

end eol

namespace eol_final

/-- `eol_final.py` `fetch_endoflife_date` (same reshaping as `eol.py`). -/
def fetch_endoflife_date (software : String) (net : Net) : FetchReturn × List String :=
  runFetcher1 ("https://endoflife.date/api/" ++ software ++ ".json") net endoflifeBody

end eol_final

/-- The per-repository record built inside `fetch_github_activity`
(identical in both revisions apart from the slice bound, which lives in
the enclosing loop): required fields are accessed with brackets, the
nullable `description`/`language` fields are defaulted with `or`. -/
def repoInfo (repo : JVal) : Except String JVal := do
  let full ← pyGetItem repo "full_name"
  let stars ← pyGetItem repo "stargazers_count"
  let upd ← pyGetItem repo "updated_at"
  let updStr ← strptimeArg upd
  let desc ← pyGetItem repo "description"
  let lang ← pyGetItem repo "language"
  let forks ← pyGetItem repo "forks_count"
  let issues ← pyGetItem repo "open_issues_count"
  pure (.obj [("Repository", full), ("Stars", stars), ("Last Updated", .str updStr),
    ("Description", if pyTruthy desc then desc else .str "No description available"),
    ("Language", if pyTruthy lang then lang else .str "Unknown"),
    ("Forks", forks), ("Open Issues", issues)])

/-- Body of `fetch_github_activity`, parameterized by the slice bound
(`repos[:50]` in `eol.py`, `repos[:5]` in `eol_final.py`):
`repos = response.json()["items"]`, then `if repos:` and the loop. -/
def githubBody (n : Nat) (response : HttpResp) : Except String JVal := do
  if response.status = 200 then do
    let data ← response.body
    let repos ← pyGetItem data "items"
    if pyTruthy repos then do
      let sl ← pySlice repos n
      let l ← pyIter sl
      let recs ← forAppend repoInfo l
      pure (.arr recs)
    else pure .null
  else pure .null

/-- Body of `fetch_maven_info` (identical in both revisions). -/
def mavenBody (response : HttpResp) : Except String JVal := do
  if response.status = 200 then do
    let data ← response.body
    let resp0 ← pyGetAttrD data "response" (.obj [])
    let docs ← pyGetAttrD resp0 "docs" (.arr [])
    if pyTruthy docs then do
      let doc ← pyIndex docs 0
      let id0 ← pyGetAttrD doc "id" .null
      let lv ← pyGetAttrD doc "latestVersion" .null
      let ts ← pyGetAttrD doc "timestamp" .null
      let g ← pyGetAttrD doc "g" .null
      let a ← pyGetAttrD doc "a" .null
      pure (.obj [("Artifact", id0), ("Latest Version", lv), ("Last Updated", ts),
        ("Group", g), ("ArtifactId", a)])
    else pure .null
  else pure .null

/-- The per-repository advisory record of `fetch_security_advisories`,
parameterized by the name of the update-date key (`"Last Updated"` in
`eol.py`, `"Updated"` in `eol_final.py`). -/
def advisoryInfo (updKey : String) (repo : JVal) : Except String JVal := do
  let nm ← pyGetItem repo "name"
  let desc ← pyGetItem repo "description"
  let upd ← pyGetItem repo "updated_at"
  let updStr ← strptimeArg upd
  let url ← pyGetItem repo "html_url"
  pure (.obj [("Title", nm), ("Description", desc), (updKey, .str updStr), ("URL", url)])

/-- Body of `fetch_security_advisories` (top three search results). -/
def securityBody (updKey : String) (response : HttpResp) : Except String JVal := do
  if response.status = 200 then do
    let data ← response.body
    let repos ← pyGetItem data "items"
    if pyTruthy repos then do
      let sl ← pySlice repos 3
      let l ← pyIter sl
      let recs ← forAppend (advisoryInfo updKey) l
      pure (.arr recs)
    else pure .null
  else pure .null

/-- The mutable `stats` dictionary of `fetch_community_stats`, with one
field per leaf entry. -/
structure CommunityStats where
  questions : JVal
  tags : JVal
  repositories : JVal
  stars : JVal

/-- The initial value of the `stats` dictionary. -/
def initStats : CommunityStats :=
  { questions := .num 0, tags := .arr [], repositories := .num 0, stars := .num 0 }

/-- The dictionary shape of the `stats` value returned by
`fetch_community_stats`. -/
def statsToJVal (s : CommunityStats) : JVal :=
  .obj [("Stack Overflow", .obj [("Questions", s.questions), ("Tags", s.tags)]),
    ("GitHub", .obj [("Repositories", s.repositories), ("Stars", s.stars)])]

/-- The Stack Overflow `try` block of `fetch_community_stats` (identical
in both revisions): mutates `Questions` and then `Tags`; an exception
anywhere leaves the mutations performed so far in place (`except: pass`). -/
def soStep (s : CommunityStats) (r : NetResult) : CommunityStats :=
  match r with
  | .exc _ => s
  | .resp response =>
    if response.status = 200 then
      match response.body with
      | .error _ => s
      | .ok data =>
        match pyGetAttrD data "items" .null with
        | .error _ => s
        | .ok items =>
          if pyTruthy items then
            match (do
                let itemsB ← pyGetItem data "items"
                let first ← pyIndex itemsB 0
                let q ← pyGetAttrD first "count" (.num 0)
                pure (first, q) : Except String (JVal × JVal)) with
            | .error _ => s
            | .ok (first, q) =>
              let s1 := { s with questions := q }
              match (do
                  let itemsB ← pyGetItem data "items"
                  let first2 ← pyIndex itemsB 0
                  let rt ← pyGetAttrD first2 "related_tags" (.arr [])
                  let l ← pyIter rt
                  forAppend (fun tag => pyGetItem tag "name") l :
                    Except String (List JVal)) with
              | .error _ => s1
              | .ok names => { s1 with tags := .arr names }
          else s
    else s

/-- The GitHub repository-count `try` block of the final revision of
`fetch_community_stats`. -/
def ghStep (s : CommunityStats) (r : NetResult) : CommunityStats :=
  match r with
  | .exc _ => s
  | .resp response =>
    if response.status = 200 then
      match response.body with
      | .error _ => s
      | .ok data =>
        match pyGetAttrD data "total_count" (.num 0) with
        | .error _ => s
        | .ok tc => { s with repositories := tc }
    else s

namespace eol

/-- `eol.py` `fetch_github_activity` (top 50; the interleaved
`st.metric` presentation call is out of scope). -/
def fetch_github_activity (software : String) (net : Net) : FetchReturn × List String :=
  runFetcher1
    ("https://api.github.com/search/repositories?q=" ++ software ++ "&sort=updated&order=desc")
    net (githubBody 50)

/-- `eol.py` `fetch_npm_info`: Last Published comes from the
per-version object (`version_info.get("time", {}).get(latest)`). -/
def npmBody (software : String) (response : HttpResp) : Except String JVal := do
  if response.status = 200 then do
    let data ← response.body
    let dt ← pyGetAttrD data "dist-tags" (.obj [])
    let latest ← pyGetAttrD dt "latest" .null
    if pyTruthy latest then do
      let versions ← pyGetAttrD data "versions" (.obj [])
      let version_info ← pyGetDyn versions latest (.obj [])
      let t ← pyGetAttrD version_info "time" (.obj [])
      let lastPub ← pyGetDyn t latest .null
      let license ← pyGetAttrD version_info "license" .null
      let deps ← pyGetAttrD version_info "dependencies" (.obj [])
      let ndeps ← pyLen deps
      let dl ← pyGetAttrD data "downloads" (.obj [])
      let dlm ← pyGetAttrD dl "last-month" (.num 0)
      pure (.obj [("Package Name", .str software), ("Latest Version", latest),
        ("Last Published", lastPub), ("License", license),
        ("Dependencies", .num (Int.ofNat ndeps)), ("Downloads", dlm)])
    else pure .null
  else pure .null

/-- `eol.py` `fetch_npm_info`. -/
def fetch_npm_info (software : String) (net : Net) : FetchReturn × List String :=
  runFetcher1 ("https://registry.npmjs.org/" ++ software) net (npmBody software)

/-- `eol.py` `fetch_pypi_info`: all classifiers joined. -/
def pypiBody (software : String) (response : HttpResp) : Except String JVal := do
  if response.status = 200 then do
    let data ← response.body
    let latest ← pyGetAttrD data "info" (.obj [])
    let ver ← pyGetAttrD latest "version" .null
    let up ← pyGetAttrD latest "upload_time" .null
    let lic ← pyGetAttrD latest "license" .null
    let cls ← pyGetAttrD latest "classifiers" (.arr [])
    let clsL ← pyIter cls
    let pv ← pyJoin ", " clsL
    let dl ← pyGetAttrD latest "downloads" (.obj [])
    let dlm ← pyGetAttrD dl "last_month" (.num 0)
    pure (.obj [("Package Name", .str software), ("Latest Version", ver),
      ("Last Published", up), ("License", lic), ("Python Versions", .str pv),
      ("Downloads", dlm)])
  else pure .null

/-- `eol.py` `fetch_pypi_info`. -/
def fetch_pypi_info (software : String) (net : Net) : FetchReturn × List String :=
  runFetcher1 ("https://pypi.org/pypi/" ++ software ++ "/json") net (pypiBody software)

/-- `eol.py` `fetch_dockerhub_info` body. -/
def dockerBody (software : String) (response : HttpResp) : Except String JVal := do
  if response.status = 200 then do
    let data ← response.body
    let results ← pyGetAttrD data "results" .null
    if pyTruthy results then do
      let r2 ← pyGetItem data "results"
      let tag ← pyIndex r2 0
      let nm ← pyGetAttrD tag "name" .null
      let lu ← pyGetAttrD tag "last_updated" .null
      let pulls ← pyGetAttrD tag "pull_count" (.str "N/A")
      pure (.obj [("Name", .str software), ("Tag", nm), ("Last Updated", lu),
        ("Pulls", pulls)])
    else pure .null
  else pure .null

/-- `eol.py` `fetch_dockerhub_info`. -/
def fetch_dockerhub_info (software : String) (net : Net) : FetchReturn × List String :=
  runFetcher1
    ("https://hub.docker.com/v2/repositories/library/" ++ software ++ "/tags?page_size=1")
    net (dockerBody software)

/-- `eol.py` `fetch_rubygems_info` body: the License entry is the raw
`licenses` value (a list when the registry sends a list). -/
def rubygemsBody (response : HttpResp) : Except String JVal := do
  if response.status = 200 then do
    let data ← response.body
    let nm ← pyGetAttrD data "name" .null
    let ver ← pyGetAttrD data "version" .null
    let dl ← pyGetAttrD data "downloads" .null
    let lu ← pyGetAttrD data "version_created_at" .null
    let lic ← pyGetAttrD data "licenses" (.arr [])
    pure (.obj [("Gem Name", nm), ("Latest Version", ver), ("Downloads", dl),
      ("Last Updated", lu), ("License", lic)])
  else pure .null

/-- `eol.py` `fetch_rubygems_info`. -/
def fetch_rubygems_info (software : String) (net : Net) : FetchReturn × List String :=
  runFetcher1 ("https://rubygems.org/api/v1/gems/" ++ software ++ ".json") net rubygemsBody

/-- `eol.py` `fetch_maven_info`. -/
def fetch_maven_info (software : String) (net : Net) : FetchReturn × List String :=
  runFetcher1
    ("https://search.maven.org/solrsearch/select?q=" ++ software ++ "&rows=1&wt=json")
    net mavenBody

/-- `eol.py` `fetch_os_package_info`: documented stub, no request. -/
def fetch_os_package_info (software : String) (net : Net) : FetchReturn × List String :=
  (.ret .null, [])

/-- `eol.py` `fetch_security_advisories` (errors become an error string). -/
def fetch_security_advisories (software : String) (net : Net) : FetchReturn × List String :=
  runFetcher1
    ("https://api.github.com/search/repositories?q=" ++ software ++
      "+security+advisory&sort=updated&order=desc")
    net (securityBody "Last Updated")

/-- `eol.py` `fetch_community_stats`: one Stack Overflow request, all
exceptions swallowed, the `stats` dictionary always returned. -/
def fetch_community_stats (software : String) (net : Net) : FetchReturn × List String :=
  (.ret (statsToJVal (soStep initStats (net 0))),
    ["https://api.stackexchange.com/2.3/tags/" ++ software ++ "/info?site=stackoverflow"])

end eol

namespace eol_final

/-- `eol_final.py` `fetch_github_activity` (top 5). -/
def fetch_github_activity (software : String) (net : Net) : FetchReturn × List String :=
  runFetcher1
    ("https://api.github.com/search/repositories?q=" ++ software ++ "&sort=updated&order=desc")
    net (githubBody 5)

/-- `eol_final.py` `fetch_npm_info`: Last Published comes from the
top-level time table (`data.get("time", {}).get(latest)`). -/
def npmBody (software : String) (response : HttpResp) : Except String JVal := do
  if response.status = 200 then do
    let data ← response.body
    let dt ← pyGetAttrD data "dist-tags" (.obj [])
    let latest ← pyGetAttrD dt "latest" .null
    if pyTruthy latest then do
      let versions ← pyGetAttrD data "versions" (.obj [])
      let version_info ← pyGetDyn versions latest (.obj [])
      let t ← pyGetAttrD data "time" (.obj [])
      let lastPub ← pyGetDyn t latest .null
      let license ← pyGetAttrD version_info "license" .null
      let deps ← pyGetAttrD version_info "dependencies" (.obj [])
      let ndeps ← pyLen deps
      let dl ← pyGetAttrD data "downloads" (.obj [])
      let dlm ← pyGetAttrD dl "last-month" (.num 0)
      pure (.obj [("Package Name", .str software), ("Latest Version", latest),
        ("Last Published", lastPub), ("License", license),
        ("Dependencies", .num (Int.ofNat ndeps)), ("Downloads", dlm)])
    else pure .null
  else pure .null

/-- `eol_final.py` `fetch_npm_info`. -/
def fetch_npm_info (software : String) (net : Net) : FetchReturn × List String :=
  runFetcher1 ("https://registry.npmjs.org/" ++ software) net (npmBody software)

/-- `eol_final.py` `fetch_pypi_info`: only the first three classifiers
are joined (`info.get("classifiers", [])[:3]`). -/
def pypiBody (software : String) (response : HttpResp) : Except String JVal := do
  if response.status = 200 then do
    let data ← response.body
    let info ← pyGetAttrD data "info" (.obj [])
    let ver ← pyGetAttrD info "version" .null
    let up ← pyGetAttrD info "upload_time" .null
    let lic ← pyGetAttrD info "license" .null
    let cls ← pyGetAttrD info "classifiers" (.arr [])
    let sl ← pySlice cls 3
    let clsL ← pyIter sl
    let pv ← pyJoin ", " clsL
    let dl ← pyGetAttrD info "downloads" (.obj [])
    let dlm ← pyGetAttrD dl "last_month" (.num 0)
    pure (.obj [("Package Name", .str software), ("Latest Version", ver),
      ("Last Published", up), ("License", lic), ("Python Versions", .str pv),
      ("Downloads", dlm)])
  else pure .null

/-- `eol_final.py` `fetch_pypi_info`. -/
def fetch_pypi_info (software : String) (net : Net) : FetchReturn × List String :=
  runFetcher1 ("https://pypi.org/pypi/" ++ software ++ "/json") net (pypiBody software)

/-- `eol_final.py` `fetch_dockerhub_info` body (record keys renamed to
Image/Tag/Updated/Pulls). -/
def dockerBody (software : String) (response : HttpResp) : Except String JVal := do
  if response.status = 200 then do
    let data ← response.body
    let results ← pyGetAttrD data "results" .null
    if pyTruthy results then do
      let r2 ← pyGetItem data "results"
      let tag ← pyIndex r2 0
      let nm ← pyGetAttrD tag "name" .null
      let lu ← pyGetAttrD tag "last_updated" .null
      let pulls ← pyGetAttrD tag "pull_count" (.str "N/A")
      pure (.obj [("Image", .str software), ("Tag", nm), ("Updated", lu),
        ("Pulls", pulls)])
    else pure .null
  else pure .null

/-- `eol_final.py` `fetch_dockerhub_info`. -/
def fetch_dockerhub_info (software : String) (net : Net) : FetchReturn × List String :=
  runFetcher1
    ("https://hub.docker.com/v2/repositories/library/" ++ software ++ "/tags?page_size=1")
    net (dockerBody software)

/-- `eol_final.py` `fetch_rubygems_info` body: the `licenses` value is
normalized to a single string (joined when a list, `str(...)` otherwise). -/
def rubygemsBody (response : HttpResp) : Except String JVal := do
  if response.status = 200 then do
    let data ← response.body
    let licenses ← pyGetAttrD data "licenses" (.arr [])
    let license_str ←
      match licenses with
      | .arr l => pyJoin ", " l
      | v => Except.ok (pyStr v)
    let nm ← pyGetAttrD data "name" .null
    let ver ← pyGetAttrD data "version" .null
    let dl ← pyGetAttrD data "downloads" .null
    let lu ← pyGetAttrD data "version_created_at" .null
    pure (.obj [("Gem Name", nm), ("Latest Version", ver), ("Downloads", dl),
      ("Last Updated", lu), ("License", .str license_str)])
  else pure .null

/-- `eol_final.py` `fetch_rubygems_info`. -/
def fetch_rubygems_info (software : String) (net : Net) : FetchReturn × List String :=
  runFetcher1 ("https://rubygems.org/api/v1/gems/" ++ software ++ ".json") net rubygemsBody

/-- `eol_final.py` `fetch_maven_info` (identical to `eol.py`). -/
def fetch_maven_info (software : String) (net : Net) : FetchReturn × List String :=
  runFetcher1
    ("https://search.maven.org/solrsearch/select?q=" ++ software ++ "&rows=1&wt=json")
    net mavenBody

/-- `eol_final.py` `fetch_os_package_info`: documented stub, no request. -/
def fetch_os_package_info (software : String) (net : Net) : FetchReturn × List String :=
  (.ret .null, [])

/-- `eol_final.py` `fetch_security_advisories`: the `except` branch
returns `None`, not an error string. -/
def fetch_security_advisories (software : String) (net : Net) : FetchReturn × List String :=
  runFetcher1None
    ("https://api.github.com/search/repositories?q=" ++ software ++
      "+security+advisory&sort=updated&order=desc")
    net (securityBody "Updated")

/-- `eol_final.py` `fetch_community_stats`: a Stack Overflow request
then a GitHub repository-count request, all exceptions swallowed, the
`stats` dictionary always returned. -/
def fetch_community_stats (software : String) (net : Net) : FetchReturn × List String :=
  (.ret (statsToJVal (ghStep (soStep initStats (net 0)) (net 1))),
    ["https://api.stackexchange.com/2.3/tags/" ++ software ++ "/info?site=stackoverflow",
      "https://api.github.com/search/repositories?q=" ++ software ++ "+in:name"])

end eol_final

/-! ### Concrete transport oracles and payloads used by the claims -/

/-- A transport oracle for which every request raises (network error,
timeout, connection refused). -/
def excNet (msg : String) : Net := fun _ => .exc msg

/-- A transport oracle delivering status 200 with a malformed body:
`response.json()` raises with the given message. -/
def malformedNet (msg : String) : Net := fun _ => .resp ⟨200, .error msg⟩

/-- Oracle delivering a 200 repository-search response with no `items` key. -/
def c3Net : Net := fun _ => .resp ⟨200, .ok (.obj [])⟩

/-- Oracle for the C3 witness: 200 response, object body without `items`. -/
def c3WitnessNet : Net := fun _ => .resp ⟨200, .ok (.obj [("total_count", .num 0)])⟩

/-- Concrete repository item for the C7 witness: null description and
null language. -/
def c7Repo : JVal :=
  .obj [("full_name", .str "a/b"), ("stargazers_count", .num 1),
    ("updated_at", .str "2024-01-02T03:04:05Z"), ("description", .null),
    ("language", .null), ("forks_count", .num 2), ("open_issues_count", .num 3)]

/-- The record the repository fetchers build from `c7Repo`. -/
def c7Rec : JVal :=
  .obj [("Repository", .str "a/b"), ("Stars", .num 1), ("Last Updated", .str "2024-01-02"),
    ("Description", .str "No description available"), ("Language", .str "Unknown"),
    ("Forks", .num 2), ("Open Issues", .num 3)]

/-- Oracle delivering a 200 search response whose only item is `c7Repo`. -/
def c7Net : Net := fun _ => .resp ⟨200, .ok (.obj [("items", .arr [c7Repo])])⟩

/-- Concrete repository item for the C4 witness. -/
def c4Repo : JVal :=
  .obj [("full_name", .str "python/cpython"), ("stargazers_count", .num 50000),
    ("updated_at", .str "2024-05-06T07:08:09Z"),
    ("description", .str "The Python programming language"), ("language", .str "C"),
    ("forks_count", .num 20000), ("open_issues_count", .num 7000)]

/-- Oracle delivering a 200 search response whose only item is `c4Repo`. -/
def c4Net : Net := fun _ => .resp ⟨200, .ok (.obj [("items", .arr [c4Repo])])⟩

/-- Concrete gem-registry payload with a two-element license list. -/
def c5Payload : JVal :=
  .obj [("name", .str "rails"), ("version", .str "7.1.0"), ("downloads", .num 500),
    ("version_created_at", .str "2023-10-05"),
    ("licenses", .arr [.str "MIT", .str "Apache-2.0"])]

/-- Oracle delivering `c5Payload` with status 200. -/
def c5Net : Net := fun _ => .resp ⟨200, .ok c5Payload⟩

/-- Remove one key from an object value (other values unchanged). -/
def stripKey (k : String) : JVal → JVal
  | .obj fs => .obj (fs.filter fun p => !(p.1 == k))
  | v => v

/-- Remove one key from the object carried by a returned value. -/
def stripRet (k : String) : FetchReturn → FetchReturn
  | .ret v => .ret (stripKey k v)
  | r => r

/-- NPM payload on which the two revisions disagree beyond the
Last Published field: the per-version object carries a non-dict `time`
entry, so `eol.py` raises (and returns an error string) where
`eol_final.py` builds a record. -/
def c9BadPayload : JVal :=
  .obj [("dist-tags", .obj [("latest", .str "1.0")]),
    ("versions", .obj [("1.0", .obj [("time", .num 5)])]),
    ("time", .obj [])]

/-- Oracle delivering `c9BadPayload` with status 200. -/
def c9BadNet : Net := fun _ => .resp ⟨200, .ok c9BadPayload⟩

/-- NPM payload realizing the distinguishing scenario of the claim: the
top-level `time` table holds the latest version's timestamp and the
per-version object has no `time` key. -/
def c9OkPayload : JVal :=
  .obj [("dist-tags", .obj [("latest", .str "1.0")]),
    ("versions", .obj [("1.0", .obj [])]),
    ("time", .obj [("1.0", .str "2020-01-01T00:00:00.000Z")])]

/-- Oracle delivering `c9OkPayload` with status 200. -/
def c9OkNet : Net := fun _ => .resp ⟨200, .ok c9OkPayload⟩

/-- Concrete EOL-registry payload for the C1 witness: one version with
`eol` literally false, one with a date string, one with the field absent. -/
def c1Payload : List JVal :=
  [.obj [("cycle", .str "3.12"), ("eol", .bool false)],
   .obj [("cycle", .str "2.7"), ("eol", .str "2020-01-01")],
   .obj [("cycle", .str "dev")]]

/-- Transport oracle delivering `c1Payload` with status 200. -/
def c1Net : Net := fun _ => .resp ⟨200, .ok (.arr c1Payload)⟩

/-- Transport oracle for C8: one version whose `eol` field is the empty string. -/
def c8NetEmptyStr : Net := fun _ => .resp ⟨200, .ok (.arr [.obj [("eol", .str "")]])⟩

/-- Transport oracle for C8: one version whose `eol` field is the number 0. -/
def c8NetZero : Net := fun _ => .resp ⟨200, .ok (.arr [.obj [("eol", .num 0)]])⟩

/-! ### Basic lemmas about the embedding -/

@[simp]
theorem exBind_ok {α β : Type} (a : α) (f : α → Except String β) :
    (Except.ok a >>= f) = f a := rfl

@[simp]
theorem exBind_error {α β : Type} (e : String) (f : α → Except String β) :
    ((Except.error e : Except String α) >>= f) = .error e := rfl

@[simp]
theorem exPure_eq {α : Type} (a : α) : (pure a : Except String α) = .ok a := rfl

theorem pyGetAttrD_isObj {v : JVal} (h : v.isObj = true) (k : String) (d : JVal) :
    pyGetAttrD v k d = .ok (dGet v k d) := by
  cases v <;> first | rfl | simp [JVal.isObj] at h

theorem pyGetAttrD_lookup {v x : JVal} {k : String} (h : objLookup k v = some x) (d : JVal) :
    pyGetAttrD v k d = .ok x := by
  cases v <;> simp [objLookup] at h <;> simp [pyGetAttrD, h]

theorem pyGetItem_lookup {v x : JVal} {k : String} (h : objLookup k v = some x) :
    pyGetItem v k = .ok x := by
  cases v <;> simp [objLookup] at h <;> simp [pyGetItem, h]

theorem pyGetItem_missing {v : JVal} {k : String} (hobj : v.isObj = true)
    (h : objLookup k v = none) : pyGetItem v k = .error (quoted k) := by
  cases v <;> simp [JVal.isObj] at hobj <;> simp [objLookup] at h <;> simp [pyGetItem, h]

theorem forAppend_map {f : JVal → Except String JVal} {g : JVal → JVal} :
    ∀ {l : List JVal}, (∀ a ∈ l, f a = .ok (g a)) → forAppend f l = .ok (l.map g) := by
  intro l
  induction l with
  | nil => intro _; rfl
  | cons a t ih =>
    intro h
    have ha := h a (by simp)
    have ht := ih fun x hx => h x (by simp [hx])
    simp [forAppend, ha, ht]

theorem forAppend_ok {f : JVal → Except String JVal} :
    ∀ {l : List JVal}, (∀ a ∈ l, ∃ b, f a = .ok b) →
      ∃ bs, forAppend f l = .ok bs ∧ List.Forall₂ (fun a b => f a = .ok b) l bs := by
  intro l
  induction l with
  | nil => intro _; exact ⟨[], rfl, List.Forall₂.nil⟩
  | cons a t ih =>
    intro h
    obtain ⟨b, hb⟩ := h a (by simp)
    obtain ⟨bs, hbs, hrel⟩ := ih fun x hx => h x (by simp [hx])
    exact ⟨b :: bs, by simp [forAppend, hb, hbs], List.Forall₂.cons hb hrel⟩

theorem versionInfo_isObj {v : JVal} (h : v.isObj = true) :
    versionInfo v = .ok (versionRecord v) := by
  simp [versionInfo, versionRecord, pyGetAttrD_isObj h]

theorem versionRecord_status (v : JVal) :
    objLookup "Support Status" (versionRecord v) =
      some (.str (supportStatus (dGet v "eol" .null))) := by
  simp [versionRecord, objLookup, lookupPairs]

theorem supportStatus_of_truthy {x : JVal} (h : pyTruthy x = true) :
    supportStatus x = "End of Life" := by
  cases x <;> simp_all [pyTruthy, supportStatus, pyEqFalse]

theorem endoflifeBody_ok {vs : List JVal} (hobj : ∀ v ∈ vs, v.isObj = true) (hne : vs ≠ []) :
    endoflifeBody ⟨200, .ok (.arr vs)⟩ = .ok (.arr (vs.map versionRecord)) := by
  have hfa : forAppend versionInfo vs = .ok (vs.map versionRecord) :=
    forAppend_map fun a ha => versionInfo_isObj (hobj a ha)
  have htr : pyTruthy (.arr vs) = true := by
    cases vs with
    | nil => exact absurd rfl hne
    | cons a t => rfl
  simp [endoflifeBody, htr, pyIter, hfa]

/-! ### Claims about the EOL-registry fetcher -/

/-- C1: for every EOL-registry payload (a non-empty list of version
objects) delivered with status 200, both revisions return one record
per version, and the derived Support Status of a version record is
`Active` when the upstream `eol` field is literally boolean false,
`End of Life` when the field is present and truthy, and `Unknown` when
the field is absent. -/
theorem c1_support_status_derivation (software : String) (net : Net) (vs : List JVal)
    (hobj : ∀ v ∈ vs, v.isObj = true) (hne : vs ≠ [])
    (hnet : net 0 = .resp ⟨200, .ok (.arr vs)⟩) :
    (eol.fetch_endoflife_date software net).1 = .ret (.arr (vs.map versionRecord)) ∧
    (eol_final.fetch_endoflife_date software net).1 = .ret (.arr (vs.map versionRecord)) ∧
    ∀ v ∈ vs,
      (objLookup "eol" v = some (.bool false) →
        objLookup "Support Status" (versionRecord v) = some (.str "Active")) ∧
      (∀ x, objLookup "eol" v = some x → pyTruthy x = true →
        objLookup "Support Status" (versionRecord v) = some (.str "End of Life")) ∧
      (objLookup "eol" v = none →
        objLookup "Support Status" (versionRecord v) = some (.str "Unknown")) := by
  have hbody := endoflifeBody_ok hobj hne
  refine ⟨?_, ?_, ?_⟩
  · simp [eol.fetch_endoflife_date, runFetcher1, runFetcher1Core, hnet, hbody]
  · simp [eol_final.fetch_endoflife_date, runFetcher1, runFetcher1Core, hnet, hbody]
  · intro v _
    refine ⟨?_, ?_, ?_⟩
    · intro h
      rw [versionRecord_status]
      simp [dGet, h, supportStatus, pyEqFalse]
    · intro x h hx
      rw [versionRecord_status]
      have : dGet v "eol" .null = x := by simp [dGet, h]
      rw [this, supportStatus_of_truthy hx]
    · intro h
      rw [versionRecord_status]
      simp [dGet, h, supportStatus, pyEqFalse, pyTruthy]


/-- Witness for C1 at the concrete payload `c1Payload`. -/
theorem c1_support_status_derivation_witness :
    (eol.fetch_endoflife_date "python" c1Net).1 = .ret (.arr (c1Payload.map versionRecord)) ∧
    (eol_final.fetch_endoflife_date "python" c1Net).1 = .ret (.arr (c1Payload.map versionRecord)) ∧
    ∀ v ∈ c1Payload,
      (objLookup "eol" v = some (.bool false) →
        objLookup "Support Status" (versionRecord v) = some (.str "Active")) ∧
      (∀ x, objLookup "eol" v = some x → pyTruthy x = true →
        objLookup "Support Status" (versionRecord v) = some (.str "End of Life")) ∧
      (objLookup "eol" v = none →
        objLookup "Support Status" (versionRecord v) = some (.str "Unknown")) :=
  c1_support_status_derivation "python" c1Net c1Payload (by decide) (by simp [c1Payload]) rfl


/-- C8: a version whose `eol` field is the empty string gets Support
Status `Unknown` (the empty string is neither `== False` nor truthy),
and a version whose `eol` field is the number 0 gets `Active`
(`0 == False` holds in Python), in both revisions. -/
theorem c8_empty_string_and_zero :
    (eol.fetch_endoflife_date "x" c8NetEmptyStr).1 =
      .ret (.arr [.obj [("Version", .str "Unknown"), ("Release Date", .str "Unknown"),
        ("EOL Date", .str ""), ("Latest", .str "Unknown"), ("LTS", .str "No"),
        ("Support Status", .str "Unknown")]]) ∧
    (eol_final.fetch_endoflife_date "x" c8NetEmptyStr).1 =
      .ret (.arr [.obj [("Version", .str "Unknown"), ("Release Date", .str "Unknown"),
        ("EOL Date", .str ""), ("Latest", .str "Unknown"), ("LTS", .str "No"),
        ("Support Status", .str "Unknown")]]) ∧
    (eol.fetch_endoflife_date "x" c8NetZero).1 =
      .ret (.arr [.obj [("Version", .str "Unknown"), ("Release Date", .str "Unknown"),
        ("EOL Date", .num 0), ("Latest", .str "Unknown"), ("LTS", .str "No"),
        ("Support Status", .str "Active")]]) ∧
    (eol_final.fetch_endoflife_date "x" c8NetZero).1 =
      .ret (.arr [.obj [("Version", .str "Unknown"), ("Release Date", .str "Unknown"),
        ("EOL Date", .num 0), ("Latest", .str "Unknown"), ("LTS", .str "No"),
        ("Support Status", .str "Active")]]) :=
  ⟨rfl, rfl, rfl, rfl⟩

/-! ### Claims about error handling and request counts -/


theorem runFetcher1Core_ne_raise (net : Net) (body : HttpResp → Except String JVal)
    (m : String) : runFetcher1Core net body ≠ .raise m := by
  cases hn : net 0 with
  | exc m2 => simp [runFetcher1Core, hn]
  | resp r => cases hb : body r <;> simp [runFetcher1Core, hn, hb]

theorem runFetcher1NoneCore_ne_raise (net : Net) (body : HttpResp → Except String JVal)
    (m : String) : runFetcher1NoneCore net body ≠ .raise m := by
  cases hn : net 0 with
  | exc m2 => simp [runFetcher1NoneCore, hn]
  | resp r => cases hb : body r <;> simp [runFetcher1NoneCore, hn, hb]

/-- C2 counterexample: on a pure transport failure the final
revision's `fetch_security_advisories` returns `None` — the Empty
outcome, not a Failure with a diagnostic — so not every fetcher
returns `Failure` on transport failure. -/
theorem c2_counterexample :
    (eol_final.fetch_security_advisories "python" (excNet "Connection refused")).1 =
      .ret .null ∧
    isFailure (eol_final.fetch_security_advisories "python" (excNet "Connection refused")).1 =
      false ∧
    isEmptyOutcome
      (eol_final.fetch_security_advisories "python" (excNet "Connection refused")).1 = true :=
  ⟨rfl, rfl, rfl⟩

/-- C2 amended: on every transport failure (raised request or malformed
200 body) every fetcher contains the fault: the eight single-source
fetchers of each revision return the non-empty diagnostic string
`Error: ...` — except the final revision's advisory fetcher, which
returns `None` — the community-stats fetchers return the default stats
record, and the OS-package stub returns `None`; no fetcher lets the
fault escape. -/
theorem c2_transport_failure_amended (software msg : String) :
    ("Error: " ++ msg) ≠ "" ∧
    (eol.fetch_endoflife_date software (excNet msg)).1 = .ret (.str ("Error: " ++ msg)) ∧
    (eol.fetch_github_activity software (excNet msg)).1 = .ret (.str ("Error: " ++ msg)) ∧
    (eol.fetch_npm_info software (excNet msg)).1 = .ret (.str ("Error: " ++ msg)) ∧
    (eol.fetch_pypi_info software (excNet msg)).1 = .ret (.str ("Error: " ++ msg)) ∧
    (eol.fetch_dockerhub_info software (excNet msg)).1 = .ret (.str ("Error: " ++ msg)) ∧
    (eol.fetch_rubygems_info software (excNet msg)).1 = .ret (.str ("Error: " ++ msg)) ∧
    (eol.fetch_maven_info software (excNet msg)).1 = .ret (.str ("Error: " ++ msg)) ∧
    (eol.fetch_security_advisories software (excNet msg)).1 = .ret (.str ("Error: " ++ msg)) ∧
    (eol_final.fetch_endoflife_date software (excNet msg)).1 = .ret (.str ("Error: " ++ msg)) ∧
    (eol_final.fetch_github_activity software (excNet msg)).1 = .ret (.str ("Error: " ++ msg)) ∧
    (eol_final.fetch_npm_info software (excNet msg)).1 = .ret (.str ("Error: " ++ msg)) ∧
    (eol_final.fetch_pypi_info software (excNet msg)).1 = .ret (.str ("Error: " ++ msg)) ∧
    (eol_final.fetch_dockerhub_info software (excNet msg)).1 = .ret (.str ("Error: " ++ msg)) ∧
    (eol_final.fetch_rubygems_info software (excNet msg)).1 = .ret (.str ("Error: " ++ msg)) ∧
    (eol_final.fetch_maven_info software (excNet msg)).1 = .ret (.str ("Error: " ++ msg)) ∧
    (eol.fetch_endoflife_date software (malformedNet msg)).1 = .ret (.str ("Error: " ++ msg)) ∧
    (eol.fetch_github_activity software (malformedNet msg)).1 = .ret (.str ("Error: " ++ msg)) ∧
    (eol.fetch_npm_info software (malformedNet msg)).1 = .ret (.str ("Error: " ++ msg)) ∧
    (eol.fetch_pypi_info software (malformedNet msg)).1 = .ret (.str ("Error: " ++ msg)) ∧
    (eol.fetch_dockerhub_info software (malformedNet msg)).1 = .ret (.str ("Error: " ++ msg)) ∧
    (eol.fetch_rubygems_info software (malformedNet msg)).1 = .ret (.str ("Error: " ++ msg)) ∧
    (eol.fetch_maven_info software (malformedNet msg)).1 = .ret (.str ("Error: " ++ msg)) ∧
    (eol.fetch_security_advisories software (malformedNet msg)).1 =
      .ret (.str ("Error: " ++ msg)) ∧
    (eol_final.fetch_endoflife_date software (malformedNet msg)).1 =
      .ret (.str ("Error: " ++ msg)) ∧
    (eol_final.fetch_github_activity software (malformedNet msg)).1 =
      .ret (.str ("Error: " ++ msg)) ∧
    (eol_final.fetch_npm_info software (malformedNet msg)).1 = .ret (.str ("Error: " ++ msg)) ∧
    (eol_final.fetch_pypi_info software (malformedNet msg)).1 = .ret (.str ("Error: " ++ msg)) ∧
    (eol_final.fetch_dockerhub_info software (malformedNet msg)).1 =
      .ret (.str ("Error: " ++ msg)) ∧
    (eol_final.fetch_rubygems_info software (malformedNet msg)).1 =
      .ret (.str ("Error: " ++ msg)) ∧
    (eol_final.fetch_maven_info software (malformedNet msg)).1 =
      .ret (.str ("Error: " ++ msg)) ∧
    (eol_final.fetch_security_advisories software (excNet msg)).1 = .ret .null ∧
    (eol_final.fetch_security_advisories software (malformedNet msg)).1 = .ret .null ∧
    (eol.fetch_community_stats software (excNet msg)).1 = .ret (statsToJVal initStats) ∧
    (eol.fetch_community_stats software (malformedNet msg)).1 =
      .ret (statsToJVal initStats) ∧
    (eol_final.fetch_community_stats software (excNet msg)).1 =
      .ret (statsToJVal initStats) ∧
    (eol_final.fetch_community_stats software (malformedNet msg)).1 =
      .ret (statsToJVal initStats) ∧
    (eol.fetch_os_package_info software (excNet msg)).1 = .ret .null ∧
    (eol_final.fetch_os_package_info software (excNet msg)).1 = .ret .null := by
  refine ⟨?_, rfl, rfl, rfl, rfl, rfl, rfl, rfl, rfl, rfl, rfl, rfl, rfl, rfl, rfl, rfl,
    rfl, rfl, rfl, rfl, rfl, rfl, rfl, rfl, rfl, rfl, rfl, rfl, rfl, rfl, rfl, rfl, rfl,
    rfl, rfl, rfl, rfl, rfl, rfl⟩
  intro h
  have h2 : ("Error: " ++ msg).length = ("" : String).length := by rw [h]
  rw [String.length_append] at h2
  have h7 : ("Error: " : String).length = 7 := by decide
  have h0 : ("" : String).length = 0 := by decide
  omega

/-- C6 counterexample: the final revision's `fetch_community_stats`
performs two outbound requests, not one. -/
theorem c6_counterexample :
    (eol_final.fetch_community_stats "python" (excNet "boom")).2.length = 2 ∧
    ¬ (eol_final.fetch_community_stats "python" (excNet "boom")).2.length = 1 :=
  ⟨rfl, by decide⟩

/-- C6 amended: for every software name and transport behaviour, each
fetcher requests exactly its fixed source-specific endpoint template
once — except the OS-package stub (no request) and the final revision's
`fetch_community_stats`, which requests the tag-stats endpoint and then
the repository-count endpoint (two requests; the first revision's
community fetcher performs only the tag-stats request). -/
theorem c6_one_request_per_fetcher_amended (software : String) (net : Net) :
    (eol.fetch_endoflife_date software net).2 =
      ["https://endoflife.date/api/" ++ software ++ ".json"] ∧
    (eol.fetch_github_activity software net).2 =
      ["https://api.github.com/search/repositories?q=" ++ software ++
        "&sort=updated&order=desc"] ∧
    (eol.fetch_npm_info software net).2 = ["https://registry.npmjs.org/" ++ software] ∧
    (eol.fetch_pypi_info software net).2 =
      ["https://pypi.org/pypi/" ++ software ++ "/json"] ∧
    (eol.fetch_dockerhub_info software net).2 =
      ["https://hub.docker.com/v2/repositories/library/" ++ software ++
        "/tags?page_size=1"] ∧
    (eol.fetch_rubygems_info software net).2 =
      ["https://rubygems.org/api/v1/gems/" ++ software ++ ".json"] ∧
    (eol.fetch_maven_info software net).2 =
      ["https://search.maven.org/solrsearch/select?q=" ++ software ++ "&rows=1&wt=json"] ∧
    (eol.fetch_security_advisories software net).2 =
      ["https://api.github.com/search/repositories?q=" ++ software ++
        "+security+advisory&sort=updated&order=desc"] ∧
    (eol.fetch_community_stats software net).2 =
      ["https://api.stackexchange.com/2.3/tags/" ++ software ++ "/info?site=stackoverflow"] ∧
    (eol.fetch_os_package_info software net).2 = [] ∧
    (eol_final.fetch_endoflife_date software net).2 =
      ["https://endoflife.date/api/" ++ software ++ ".json"] ∧
    (eol_final.fetch_github_activity software net).2 =
      ["https://api.github.com/search/repositories?q=" ++ software ++
        "&sort=updated&order=desc"] ∧
    (eol_final.fetch_npm_info software net).2 = ["https://registry.npmjs.org/" ++ software] ∧
    (eol_final.fetch_pypi_info software net).2 =
      ["https://pypi.org/pypi/" ++ software ++ "/json"] ∧
    (eol_final.fetch_dockerhub_info software net).2 =
      ["https://hub.docker.com/v2/repositories/library/" ++ software ++
        "/tags?page_size=1"] ∧
    (eol_final.fetch_rubygems_info software net).2 =
      ["https://rubygems.org/api/v1/gems/" ++ software ++ ".json"] ∧
    (eol_final.fetch_maven_info software net).2 =
      ["https://search.maven.org/solrsearch/select?q=" ++ software ++ "&rows=1&wt=json"] ∧
    (eol_final.fetch_security_advisories software net).2 =
      ["https://api.github.com/search/repositories?q=" ++ software ++
        "+security+advisory&sort=updated&order=desc"] ∧
    (eol_final.fetch_community_stats software net).2 =
      ["https://api.stackexchange.com/2.3/tags/" ++ software ++ "/info?site=stackoverflow",
        "https://api.github.com/search/repositories?q=" ++ software ++ "+in:name"] ∧
    (eol_final.fetch_os_package_info software net).2 = [] :=
  ⟨rfl, rfl, rfl, rfl, rfl, rfl, rfl, rfl, rfl, rfl, rfl, rfl, rfl, rfl, rfl, rfl, rfl,
    rfl, rfl, rfl⟩

/-- C3 counterexample: on a 200 response whose JSON object lacks the
`items` field, both revisions of the repository-search fetcher return
the error string `Error: 'items'` — a Failure outcome caused by a
missing field. -/
theorem c3_counterexample :
    (eol.fetch_github_activity "python" c3Net).1 =
      .ret (.str ("Error: " ++ quoted "items")) ∧
    (eol_final.fetch_github_activity "python" c3Net).1 =
      .ret (.str ("Error: " ++ quoted "items")) ∧
    isFailure (eol.fetch_github_activity "python" c3Net).1 = true ∧
    isFailure (eol_final.fetch_github_activity "python" c3Net).1 = true :=
  ⟨rfl, rfl, rfl, rfl⟩

/-- C3 amended: fields read through defaulting accessors are replaced by
placeholders, and a schema error never escapes a fetcher as an unhandled
fault; but the repository-search fetcher reads its required fields with
bracket access, so a 200 object body with no `items` key yields the
Failure outcome `Error: 'items'` in both revisions. -/
theorem c3_schema_error_amended (software : String) (data : JVal) (net : Net)
    (hd : data.isObj = true) (hmiss : objLookup "items" data = none)
    (hnet : net 0 = .resp ⟨200, .ok data⟩) :
    (eol.fetch_github_activity software net).1 = .ret (.str ("Error: " ++ quoted "items")) ∧
    (eol_final.fetch_github_activity software net).1 =
      .ret (.str ("Error: " ++ quoted "items")) ∧
    (∀ net2 m, (eol.fetch_github_activity software net2).1 ≠ .raise m) ∧
    (∀ net2 m, (eol_final.fetch_github_activity software net2).1 ≠ .raise m) := by
  have hitem := pyGetItem_missing hd hmiss
  refine ⟨?_, ?_, ?_, ?_⟩
  · simp [eol.fetch_github_activity, runFetcher1, runFetcher1Core, hnet, githubBody, hitem]
  · simp [eol_final.fetch_github_activity, runFetcher1, runFetcher1Core, hnet, githubBody,
      hitem]
  · intro net2 m
    exact runFetcher1Core_ne_raise net2 _ m
  · intro net2 m
    exact runFetcher1Core_ne_raise net2 _ m

/-- Witness for the amended C3 at a concrete itemless 200 body. -/
theorem c3_schema_error_amended_witness :
    (JVal.obj [("total_count", .num 0)]).isObj = true ∧
    objLookup "items" (.obj [("total_count", .num 0)]) = none ∧
    ((eol.fetch_github_activity "python" c3WitnessNet).1 =
        .ret (.str ("Error: " ++ quoted "items")) ∧
      (eol_final.fetch_github_activity "python" c3WitnessNet).1 =
        .ret (.str ("Error: " ++ quoted "items")) ∧
      (∀ net2 m, (eol.fetch_github_activity "python" net2).1 ≠ .raise m) ∧
      (∀ net2 m, (eol_final.fetch_github_activity "python" net2).1 ≠ .raise m)) :=
  ⟨rfl, rfl,
    c3_schema_error_amended "python" (.obj [("total_count", .num 0)]) c3WitnessNet rfl rfl rfl⟩

/-! ### Claims about the repository-search and RubyGems fetchers -/

theorem repoInfo_ok_shape {repo rec : JVal} (h : repoInfo repo = .ok rec) :
    ∃ full stars updStr desc lang forks issues,
      pyGetItem repo "description" = .ok desc ∧
      pyGetItem repo "language" = .ok lang ∧
      rec = .obj [("Repository", full), ("Stars", stars), ("Last Updated", .str updStr),
        ("Description", if pyTruthy desc then desc else .str "No description available"),
        ("Language", if pyTruthy lang then lang else .str "Unknown"),
        ("Forks", forks), ("Open Issues", issues)] := by
  simp only [repoInfo] at h
  cases h1 : pyGetItem repo "full_name" with
  | error e => simp [h1] at h
  | ok full =>
  simp only [h1, exBind_ok] at h
  cases h2 : pyGetItem repo "stargazers_count" with
  | error e => simp [h2] at h
  | ok stars =>
  simp only [h2, exBind_ok] at h
  cases h3 : pyGetItem repo "updated_at" with
  | error e => simp [h3] at h
  | ok upd =>
  simp only [h3, exBind_ok] at h
  cases h4 : strptimeArg upd with
  | error e => simp [h4] at h
  | ok updStr =>
  simp only [h4, exBind_ok] at h
  cases h5 : pyGetItem repo "description" with
  | error e => simp [h5] at h
  | ok desc =>
  simp only [h5, exBind_ok] at h
  cases h6 : pyGetItem repo "language" with
  | error e => simp [h6] at h
  | ok lang =>
  simp only [h6, exBind_ok] at h
  cases h7 : pyGetItem repo "forks_count" with
  | error e => simp [h7] at h
  | ok forks =>
  simp only [h7, exBind_ok] at h
  cases h8 : pyGetItem repo "open_issues_count" with
  | error e => simp [h8] at h
  | ok issues =>
  simp only [h8, exBind_ok, exPure_eq, Except.ok.injEq] at h
  exact ⟨full, stars, updStr, desc, lang, forks, issues, rfl, rfl, h.symm⟩

/-- C7: a repository item whose `description` and `language` fields are
present but null yields a record carrying the placeholder texts
`No description available` and `Unknown` instead of null, and such a
record is what both revisions of the repository fetcher return. -/
theorem c7_null_description_language (software : String) (net : Net) (repo rec : JVal)
    (hinfo : repoInfo repo = .ok rec)
    (hdesc : objLookup "description" repo = some .null)
    (hlang : objLookup "language" repo = some .null)
    (hnet : net 0 = .resp ⟨200, .ok (.obj [("items", .arr [repo])])⟩) :
    objLookup "Description" rec = some (.str "No description available") ∧
    objLookup "Language" rec = some (.str "Unknown") ∧
    (eol.fetch_github_activity software net).1 = .ret (.arr [rec]) ∧
    (eol_final.fetch_github_activity software net).1 = .ret (.arr [rec]) := by
  obtain ⟨full, stars, updStr, desc, lang, forks, issues, hd2, hl2, hrec⟩ :=
    repoInfo_ok_shape hinfo
  rw [pyGetItem_lookup hdesc] at hd2
  rw [pyGetItem_lookup hlang] at hl2
  injection hd2 with hd3
  injection hl2 with hl3
  subst hd3
  subst hl3
  have hfa : forAppend repoInfo [repo] = .ok [rec] := by simp [forAppend, hinfo]
  have hitem : pyGetItem (.obj [("items", .arr [repo])]) "items" = .ok (.arr [repo]) := rfl
  have htr : pyTruthy (.arr [repo]) = true := rfl
  have hsl50 : pySlice (.arr [repo]) 50 = .ok (.arr [repo]) := rfl
  have hsl5 : pySlice (.arr [repo]) 5 = .ok (.arr [repo]) := rfl
  have hit : pyIter (.arr [repo]) = .ok [repo] := rfl
  refine ⟨?_, ?_, ?_, ?_⟩
  · rw [hrec]; simp [objLookup, lookupPairs, pyTruthy]
  · rw [hrec]; simp [objLookup, lookupPairs, pyTruthy]
  · simp [eol.fetch_github_activity, runFetcher1, runFetcher1Core, hnet, githubBody,
      hitem, htr, hsl50, hit, hfa]
  · simp [eol_final.fetch_github_activity, runFetcher1, runFetcher1Core, hnet, githubBody,
      hitem, htr, hsl5, hit, hfa]


/-- Witness for C7 at the concrete item `c7Repo`. -/
theorem c7_null_description_language_witness :
    repoInfo c7Repo = .ok c7Rec ∧
    objLookup "description" c7Repo = some .null ∧
    objLookup "language" c7Repo = some .null ∧
    (objLookup "Description" c7Rec = some (.str "No description available") ∧
      objLookup "Language" c7Rec = some (.str "Unknown") ∧
      (eol.fetch_github_activity "python" c7Net).1 = .ret (.arr [c7Rec]) ∧
      (eol_final.fetch_github_activity "python" c7Net).1 = .ret (.arr [c7Rec])) :=
  ⟨rfl, rfl, rfl,
    c7_null_description_language "python" c7Net c7Repo c7Rec rfl rfl rfl rfl⟩

/-- C4: on a successful repository-search response whose `items` list is
non-empty and whose leading items reshape cleanly, the repository fetcher
returns one record per item taken from the front of the upstream list in
upstream order — at most 50 of them in `eol.py` and at most 5 in
`eol_final.py`. -/
theorem c4_top_n_records (software : String) (net : Net) (data : JVal) (l : List JVal)
    (hd : data.isObj = true)
    (hitems : objLookup "items" data = some (.arr l))
    (hne : l ≠ [])
    (hnet : net 0 = .resp ⟨200, .ok data⟩)
    (hrep : ∀ v ∈ l.take 50, ∃ r, repoInfo v = .ok r) :
    (∃ rs, (eol.fetch_github_activity software net).1 = .ret (.arr rs) ∧
      List.Forall₂ (fun v r => repoInfo v = .ok r) (l.take 50) rs ∧
      rs.length = min 50 l.length) ∧
    (∃ rs, (eol_final.fetch_github_activity software net).1 = .ret (.arr rs) ∧
      List.Forall₂ (fun v r => repoInfo v = .ok r) (l.take 5) rs ∧
      rs.length = min 5 l.length) := by
  have hitem := pyGetItem_lookup hitems
  have htr : pyTruthy (.arr l) = true := by
    cases l with
    | nil => exact absurd rfl hne
    | cons a t => rfl
  have h5sub : ∀ v ∈ l.take 5, ∃ r, repoInfo v = .ok r := by
    intro v hv
    apply hrep
    have he : l.take 5 = (l.take 50).take 5 := by
      rw [List.take_take]
      norm_num
    rw [he] at hv
    exact List.take_subset 5 (l.take 50) hv
  obtain ⟨rs50, hfa50, hrel50⟩ := forAppend_ok hrep
  obtain ⟨rs5, hfa5, hrel5⟩ := forAppend_ok h5sub
  constructor
  · refine ⟨rs50, ?_, hrel50, ?_⟩
    · simp [eol.fetch_github_activity, runFetcher1, runFetcher1Core, hnet, githubBody,
        hitem, htr, pySlice, pyIter, hfa50]
    · rw [← hrel50.length_eq, List.length_take]
  · refine ⟨rs5, ?_, hrel5, ?_⟩
    · simp [eol_final.fetch_github_activity, runFetcher1, runFetcher1Core, hnet, githubBody,
        hitem, htr, pySlice, pyIter, hfa5]
    · rw [← hrel5.length_eq, List.length_take]


/-- Witness for C4 at a one-item search response. -/
theorem c4_top_n_records_witness :
    (JVal.obj [("items", .arr [c4Repo])]).isObj = true ∧
    objLookup "items" (.obj [("items", .arr [c4Repo])]) = some (.arr [c4Repo]) ∧
    ([c4Repo] : List JVal) ≠ [] ∧
    (∀ v ∈ ([c4Repo] : List JVal).take 50, ∃ r, repoInfo v = .ok r) ∧
    ((∃ rs, (eol.fetch_github_activity "python" c4Net).1 = .ret (.arr rs) ∧
      List.Forall₂ (fun v r => repoInfo v = .ok r) (([c4Repo] : List JVal).take 50) rs ∧
      rs.length = min 50 ([c4Repo] : List JVal).length) ∧
    (∃ rs, (eol_final.fetch_github_activity "python" c4Net).1 = .ret (.arr rs) ∧
      List.Forall₂ (fun v r => repoInfo v = .ok r) (([c4Repo] : List JVal).take 5) rs ∧
      rs.length = min 5 ([c4Repo] : List JVal).length)) :=
  ⟨rfl, rfl, by simp, fun v hv => by simp at hv; subst hv; exact ⟨_, rfl⟩,
    c4_top_n_records "python" c4Net (.obj [("items", .arr [c4Repo])]) [c4Repo] rfl rfl
      (by simp) rfl (fun v hv => by simp at hv; subst hv; exact ⟨_, rfl⟩)⟩


/-- C5 counterexample: on a gem payload whose `licenses` field is a
two-string list, the first revision (`eol.py`) returns the raw list as
the License value — not a single joined string — so the claim fails for
that revision of the RubyGems fetcher. -/
theorem c5_counterexample :
    (eol.fetch_rubygems_info "rails" c5Net).1 =
      .ret (.obj [("Gem Name", .str "rails"), ("Latest Version", .str "7.1.0"),
        ("Downloads", .num 500), ("Last Updated", .str "2023-10-05"),
        ("License", .arr [.str "MIT", .str "Apache-2.0"])]) ∧
    ∀ s, JVal.arr [.str "MIT", .str "Apache-2.0"] ≠ .str s :=
  ⟨rfl, fun s h => JVal.noConfusion h⟩

/-- C5 amended: on a gem payload whose `licenses` field is a list of two
strings, the final revision (`eol_final.py`) returns the two strings
joined by a comma-space as a single string, while the first revision
(`eol.py`) returns the raw list. -/
theorem c5_license_join_amended (software : String) (net : Net) (data : JVal) (a b : String)
    (hd : data.isObj = true)
    (hlic : objLookup "licenses" data = some (.arr [.str a, .str b]))
    (hnet : net 0 = .resp ⟨200, .ok data⟩) :
    (eol_final.fetch_rubygems_info software net).1 =
      .ret (.obj [("Gem Name", dGet data "name" .null),
        ("Latest Version", dGet data "version" .null),
        ("Downloads", dGet data "downloads" .null),
        ("Last Updated", dGet data "version_created_at" .null),
        ("License", .str (a ++ ", " ++ b))]) ∧
    (eol.fetch_rubygems_info software net).1 =
      .ret (.obj [("Gem Name", dGet data "name" .null),
        ("Latest Version", dGet data "version" .null),
        ("Downloads", dGet data "downloads" .null),
        ("Last Updated", dGet data "version_created_at" .null),
        ("License", .arr [.str a, .str b])]) := by
  constructor
  · simp [eol_final.fetch_rubygems_info, runFetcher1, runFetcher1Core, hnet,
      eol_final.rubygemsBody, pyGetAttrD_lookup hlic, pyGetAttrD_isObj hd,
      pyJoin, strsOf, joinStrs]
  · simp [eol.fetch_rubygems_info, runFetcher1, runFetcher1Core, hnet,
      eol.rubygemsBody, pyGetAttrD_lookup hlic, pyGetAttrD_isObj hd]

/-- Witness for the amended C5 at the concrete payload `c5Payload`. -/
theorem c5_license_join_amended_witness :
    c5Payload.isObj = true ∧
    objLookup "licenses" c5Payload = some (.arr [.str "MIT", .str "Apache-2.0"]) ∧
    ((eol_final.fetch_rubygems_info "rails" c5Net).1 =
      .ret (.obj [("Gem Name", dGet c5Payload "name" .null),
        ("Latest Version", dGet c5Payload "version" .null),
        ("Downloads", dGet c5Payload "downloads" .null),
        ("Last Updated", dGet c5Payload "version_created_at" .null),
        ("License", .str ("MIT" ++ ", " ++ "Apache-2.0"))]) ∧
    (eol.fetch_rubygems_info "rails" c5Net).1 =
      .ret (.obj [("Gem Name", dGet c5Payload "name" .null),
        ("Latest Version", dGet c5Payload "version" .null),
        ("Downloads", dGet c5Payload "downloads" .null),
        ("Last Updated", dGet c5Payload "version_created_at" .null),
        ("License", .arr [.str "MIT", .str "Apache-2.0"])])) :=
  ⟨rfl, rfl,
    c5_license_join_amended "rails" c5Net c5Payload "MIT" "Apache-2.0" rfl rfl rfl⟩

/-! ### Claims comparing the NPM fetchers and about community stats -/





theorem pyGetDyn_str_isObj {v : JVal} (h : v.isObj = true) (s : String) (d : JVal) :
    pyGetDyn v (.str s) d = .ok (dGet v s d) := by
  cases v <;> first | rfl | simp [JVal.isObj] at h

/-- C9 counterexample: the two NPM fetchers do not agree on every field
other than Last Published — on `c9BadPayload` the first revision
returns an error string while the final revision returns a record, so
stripping Last Published leaves different results. -/
theorem c9_counterexample :
    stripRet "Last Published" (eol.fetch_npm_info "x" c9BadNet).1 ≠
      stripRet "Last Published" (eol_final.fetch_npm_info "x" c9BadNet).1 := by
  intro h
  have h1 : stripRet "Last Published" (eol.fetch_npm_info "x" c9BadNet).1 =
      .ret (.str ("Error: " ++ attrGetErr (.num 5))) := rfl
  have h2 : stripRet "Last Published" (eol_final.fetch_npm_info "x" c9BadNet).1 =
      .ret (.obj [("Package Name", .str "x"), ("Latest Version", .str "1.0"),
        ("License", .null), ("Dependencies", .num 0), ("Downloads", .num 0)]) := rfl
  rw [h1, h2] at h
  injection h with h3
  exact JVal.noConfusion h3

/-- C9 amended: there is a payload (top-level `time` holding the latest
timestamp, per-version object without `time`) on which `eol.py` reports
Last Published null while `eol_final.py` reports the timestamp, the two
agreeing on every other field there; and for every payload that is
well-shaped (dicts where the fetchers expect dicts, a non-empty string
latest version) the two revisions agree on everything except the
Last Published field.  (Without the well-shapedness condition they can
disagree elsewhere, per the counterexample.) -/
theorem c9_npm_last_published_amended :
    (eol.fetch_npm_info "x" c9OkNet).1 =
      .ret (.obj [("Package Name", .str "x"), ("Latest Version", .str "1.0"),
        ("Last Published", .null), ("License", .null), ("Dependencies", .num 0),
        ("Downloads", .num 0)]) ∧
    (eol_final.fetch_npm_info "x" c9OkNet).1 =
      .ret (.obj [("Package Name", .str "x"), ("Latest Version", .str "1.0"),
        ("Last Published", .str "2020-01-01T00:00:00.000Z"), ("License", .null),
        ("Dependencies", .num 0), ("Downloads", .num 0)]) ∧
    stripRet "Last Published" (eol.fetch_npm_info "x" c9OkNet).1 =
      stripRet "Last Published" (eol_final.fetch_npm_info "x" c9OkNet).1 ∧
    ∀ (software lv : String) (net : Net) (data : JVal),
      net 0 = .resp ⟨200, .ok data⟩ →
      data.isObj = true →
      (dGet data "dist-tags" (.obj [])).isObj = true →
      dGet (dGet data "dist-tags" (.obj [])) "latest" .null = .str lv →
      lv ≠ "" →
      (dGet data "versions" (.obj [])).isObj = true →
      (dGet (dGet data "versions" (.obj [])) lv (.obj [])).isObj = true →
      (dGet (dGet (dGet data "versions" (.obj [])) lv (.obj [])) "time" (.obj [])).isObj
        = true →
      (dGet data "time" (.obj [])).isObj = true →
      stripRet "Last Published" (eol.fetch_npm_info software net).1 =
        stripRet "Last Published" (eol_final.fetch_npm_info software net).1 := by
  refine ⟨rfl, rfl, rfl, ?_⟩
  intro software lv net data hnet hd hdt hlat hlv hvers hvi hvt hdt2
  have htr : pyTruthy (.str lv) = true := by simp [pyTruthy, hlv]
  simp only [eol.fetch_npm_info, eol_final.fetch_npm_info, runFetcher1, runFetcher1Core,
    hnet, eol.npmBody, eol_final.npmBody, pyGetAttrD_isObj hd, pyGetAttrD_isObj hdt,
    pyGetAttrD_isObj hvers, pyGetAttrD_isObj hvi, pyGetAttrD_isObj hvt,
    pyGetAttrD_isObj hdt2, pyGetDyn_str_isObj hvers, pyGetDyn_str_isObj hvt,
    pyGetDyn_str_isObj hdt2, hlat, htr, exBind_ok, exPure_eq, if_true, reduceIte]
  cases hplen : pyLen (dGet (dGet (dGet data "versions" (.obj [])) lv (.obj []))
      "dependencies" (.obj [])) with
  | error e => simp [hplen]
  | ok n =>
    simp only [hplen, exBind_ok]
    cases hdlm : pyGetAttrD (dGet data "downloads" (.obj [])) "last-month" (.num 0) with
    | error e => simp [hdlm]
    | ok m =>
      simp only [hdlm, exBind_ok, exPure_eq]
      rfl

/-- Witness for the universal part of the amended C9 at `c9OkPayload`. -/
theorem c9_npm_last_published_amended_witness :
    c9OkPayload.isObj = true ∧
    (dGet c9OkPayload "dist-tags" (.obj [])).isObj = true ∧
    dGet (dGet c9OkPayload "dist-tags" (.obj [])) "latest" .null = .str "1.0" ∧
    ("1.0" : String) ≠ "" ∧
    (dGet c9OkPayload "versions" (.obj [])).isObj = true ∧
    (dGet (dGet c9OkPayload "versions" (.obj [])) "1.0" (.obj [])).isObj = true ∧
    (dGet (dGet (dGet c9OkPayload "versions" (.obj [])) "1.0" (.obj []))
      "time" (.obj [])).isObj = true ∧
    (dGet c9OkPayload "time" (.obj [])).isObj = true ∧
    stripRet "Last Published" (eol.fetch_npm_info "x" c9OkNet).1 =
      stripRet "Last Published" (eol_final.fetch_npm_info "x" c9OkNet).1 :=
  ⟨rfl, rfl, rfl, by decide, rfl, rfl, rfl, rfl,
    c9_npm_last_published_amended.2.2.2 "x" "1.0" c9OkNet c9OkPayload rfl rfl rfl rfl
      (by decide) rfl rfl rfl rfl⟩

/-- C10: for every software name and every transport behaviour, the
community-stats fetcher of either revision returns the stats record —
whose rendering always carries the Stack Overflow entry (Questions and
Tags, initialized to 0 and the empty list) and the GitHub entry — never
an error string and never an escaping exception, so its outcome can
never be a Failure. -/
theorem c10_community_stats_never_failure (software : String) (net : Net) :
    (∃ s, (eol.fetch_community_stats software net).1 = .ret (statsToJVal s)) ∧
    (∃ s, (eol_final.fetch_community_stats software net).1 = .ret (statsToJVal s)) ∧
    isFailure (eol.fetch_community_stats software net).1 = false ∧
    isFailure (eol_final.fetch_community_stats software net).1 = false ∧
    (∀ m, (eol.fetch_community_stats software net).1 ≠ .raise m) ∧
    (∀ m, (eol_final.fetch_community_stats software net).1 ≠ .raise m) ∧
    (∀ s, objLookup "Stack Overflow" (statsToJVal s) =
        some (.obj [("Questions", s.questions), ("Tags", s.tags)]) ∧
      objLookup "GitHub" (statsToJVal s) =
        some (.obj [("Repositories", s.repositories), ("Stars", s.stars)])) ∧
    initStats.questions = .num 0 ∧ initStats.tags = .arr [] :=
  ⟨⟨soStep initStats (net 0), rfl⟩,
    ⟨ghStep (soStep initStats (net 0)) (net 1), rfl⟩,
    rfl, rfl,
    fun m h => FetchReturn.noConfusion h,
    fun m h => FetchReturn.noConfusion h,
    fun s => ⟨rfl, rfl⟩,
    rfl, rfl⟩
